import Mathlib

/-!
# Verification of the pathos launcher core

A shallow embedding of `pathos/LauncherSCP.py` and `pathos/core.py`.

The `LauncherSCP` class is modelled as a state record; interactions with the
operating system (the pid of a spawned child, the bytes the child eventually
writes to its stdout pipe, and the outcome of the bounded readiness poll) are
passed in as explicit parameters, and the OS-facing effects of `kill` are
returned as an explicit action list.  The orchestration functions of `core.py`
are modelled over the collected response value, which the launcher abstraction
delivers as an `Option String` (`none` being Python's `None` sentinel).
-/

namespace Pathos

/-! ## Configuration record (`LauncherSCP.Inventory`)

`pyre.inventory` declarations, lines 73-84 of `LauncherSCP.py`: string traits
`launcher` (default `"scp"`), `options`, `source`, `destination` (default
`""`), boolean `background` (default `False`), an input-file trait `stdin`
(modelled as an optional handle name, `none` = not configured), plus the
`nodes`/`nodelist` traits inherited from the base `Launcher.Inventory`. -/
structure Inventory where
  launcher : String
  options : String
  source : String
  destination : String
  background : Bool
  stdin : Option String
  nodes : Nat
  nodelist : Option (List Nat)
  deriving Repr, DecidableEq

def defaultInventory : Inventory :=
  { launcher := "scp", options := "", source := "", destination := ""
    background := false, stdin := none, nodes := 0, nodelist := none }

/-- A keyword argument passed to `config(**kwds)`.  Python keyword arguments
carry a key name and a value; `config` dispatches on the key name
(lines 102-118), so we represent each recognised key as a constructor carrying
a value of the trait's type, and any unrecognised key as `other` (its value is
irrelevant because the `if`/`elif` chain never touches it). -/
inductive Kwd where
  | source (v : String)
  | destination (v : String)
  | launcher (v : String)
  | options (v : String)
  | background (v : Bool)
  | stdin (v : Option String)
  | fgbg (v : String)
  | other (key : String)
  deriving Repr, DecidableEq

/-- One iteration of the `for key, value in kwds.items()` loop of
`config` (lines 102-118): recognised keys assign the corresponding inventory
trait; the backward-compatibility key `fgbg` sets `background` to whether the
value is a member of `['bg','background']`; any other key falls off the
`if`/`elif` chain and leaves the inventory unchanged. -/
def configApply (inv : Inventory) (k : Kwd) : Inventory :=
  match k with
  | .source v => { inv with source := v }
  | .destination v => { inv with destination := v }
  | .launcher v => { inv with launcher := v }
  | .options v => { inv with options := v }
  | .background v => { inv with background := v }
  | .stdin v => { inv with stdin := v }
  | .fgbg v => { inv with background := (v = "bg" || v = "background") }
  | .other _ => inv

/-- The dictionary `config` returns (lines 119-122): the inventory restricted
to the six recognised key names
`['source','destination','launcher','options','background','stdin']`
(the inherited `nodes`/`nodelist` traits are filtered out by `if i in names`). -/
structure ConfigRecord where
  source : String
  destination : String
  launcher : String
  options : String
  background : Bool
  stdin : Option String
  deriving Repr, DecidableEq

def recordOf (inv : Inventory) : ConfigRecord :=
  { source := inv.source, destination := inv.destination
    launcher := inv.launcher, options := inv.options
    background := inv.background, stdin := inv.stdin }

/-! ## Launcher state -/

/-- The child-side stdout pipe saved as `self._fromchild`.  `content` is the
full text the child writes before closing the pipe; `consumed` records whether
a `read()` to end-of-file has already happened (a second `read()` on an
exhausted pipe yields `""`); `reads` counts the `read()` calls issued on this
handle. -/
structure Handle where
  content : String
  consumed : Bool
  reads : Nat
  deriving Repr, DecidableEq

/-- A blocking `read()` to end-of-file on the pipe. -/
def Handle.read (h : Handle) : String × Handle :=
  (if h.consumed then "" else h.content,
   { h with consumed := true, reads := h.reads + 1 })

/-- The mutable state of a `LauncherSCP` instance: its inventory, `_pid`,
cached `_response` (`none` = Python `None`, the unset sentinel) and the saved
stdout handle `_fromchild`. -/
structure LauncherSCP where
  name : String
  inventory : Inventory
  pid : Int
  response : Option String
  fromchild : Handle
  deriving Repr, DecidableEq

/-- `LauncherSCP('name', **kwds)` (lines 46-71): initialise with the trait
defaults, then run `self.config(**kwds)`. -/
def LauncherSCP.create (name : String) (kwds : List Kwd) : LauncherSCP :=
  { name := name
    inventory := kwds.foldl configApply defaultInventory
    pid := 0
    response := none
    fromchild := { content := "", consumed := true, reads := 0 } }

/-- `config(**kwds)` (lines 90-122): fold the keyword assignments over the
current inventory, then return the record restricted to the six recognised
names together with the updated launcher. -/
def LauncherSCP.config (s : LauncherSCP) (kwds : List Kwd) :
    ConfigRecord × LauncherSCP :=
  let inv := kwds.foldl configApply s.inventory
  (recordOf inv, { s with inventory := inv })

/-- The command string built by `launch` (lines 126-129):
`'%s %s %s %s' % (launcher, options, source, destination)`. -/
def buildCommand (inv : Inventory) : String :=
  inv.launcher ++ " " ++ inv.options ++ " " ++ inv.source ++ " "
    ++ inv.destination

/-- `_execute(command)` (lines 135-150): spawn the command.  The operating
system chooses the child's process id `childPid` (always positive for a real
`Popen`) and the child eventually produces `childOutput` on the pipe.  In the
background branch `_pid` is set to the child's pid and the stdout handle saved;
in the foreground branch the handle is saved and `_pid` is set to `0`. -/
def LauncherSCP.execute (s : LauncherSCP) (childPid : Int)
    (childOutput : String) : LauncherSCP :=
  if s.inventory.background then
    { s with pid := childPid
             fromchild := { content := childOutput, consumed := false, reads := 0 } }
  else
    { s with pid := 0
             fromchild := { content := childOutput, consumed := false, reads := 0 } }

/-- `launch()` (lines 124-133): build the command string, reset `_response` to
`None`, and `_execute` the command.  The built command (the string handed to
`Popen`) is returned alongside the new state so that it can be observed. -/
def LauncherSCP.launch (s : LauncherSCP) (childPid : Int)
    (childOutput : String) : String × LauncherSCP :=
  let command := buildCommand s.inventory
  (command, LauncherSCP.execute { s with response := none } childPid childOutput)

/-- `sel.watch(2.0)` (line 179): the fixed duration, in time units, of the
bounded readiness poll performed for a background process. -/
def watchTimeout : ℚ := 2

/-- Outcome of one bounded `Selector` watch over the output handle: either
data became ready within the `watchTimeout` window (the `onData` callback
fires) or the window elapsed idle (the `onTimeout` callback fires). -/
inductive Poll where
  | ready
  | timeout
  deriving Repr, DecidableEq

/-- `response()` (lines 152-182).  If `_response` is not `None`, return it
unchanged.  Otherwise, foreground (`_pid <= 0`): blocking `read()` of the
handle, cache and return it.  Background (`_pid > 0`): run one bounded poll;
if data became ready, `onData` reads the handle into `_response`, which is
returned; if the poll timed out, `_response` is still `None` and is returned.
The function is total: no branch raises. -/
def LauncherSCP.getResponse (s : LauncherSCP) (p : Poll) :
    Option String × LauncherSCP :=
  match s.response with
  | some r => (some r, s)
  | none =>
    if s.pid ≤ 0 then
      let (d, h) := s.fromchild.read
      (some d, { s with response := some d, fromchild := h })
    else
      match p with
      | .ready =>
        let (d, h) := s.fromchild.read
        (some d, { s with response := some d, fromchild := h })
      | .timeout => (none, s)

/-- An OS-visible effect of `kill()`. -/
inductive OSAction where
  | sigterm (pid : Int)
  | waitpid (pid : Int)
  deriving Repr, DecidableEq

/-- `kill()` (lines 188-195): if `_pid > 0`, issue `os.kill(pid, SIGTERM)`,
then `os.waitpid(pid, 0)` (blocking until the child is reaped), then reset
`_pid` to `0`; otherwise do nothing.  The emitted OS actions are returned in
order alongside the new state. -/
def LauncherSCP.kill (s : LauncherSCP) : LauncherSCP × List OSAction :=
  if s.pid > 0 then
    ({ s with pid := 0 }, [OSAction.sigterm s.pid, OSAction.waitpid s.pid])
  else
    (s, [])

/-! ## Orchestration functions (`pathos/core.py`)

`run(command, rhost, bg=True)` (lines 30-44 of `core.py`) configures a shell
launcher — `background` defaulting to true — launches it and returns
`launcher.response()`.  Per the launcher contract above, that collected value
is an `Option String`: a string once output was captured, or `none` (Python
`None`) when a background poll timed out.  The functions below are modelled
over that collected value. -/

/-- `bg=True`, the default of the `run(command, rhost, bg=True)` signature
(line 30 of `core.py`): the inner launch of `getpid` runs in the background. -/
def runBackgroundDefault : Bool := true

/-- Split a character list at every character satisfying `p`, keeping empty
fields — the semantics of Python's `str.split(sep)` with an explicit
separator (`"".split(" ") == ['']`, `"a  b".split(" ") == ['a','','b']`). -/
def splitCharsBy (p : Char → Bool) : List Char → List (List Char)
  | [] => [[]]
  | c :: cs =>
    match splitCharsBy p cs with
    | [] => if p c then [[], []] else [[c]]
    | r :: rs => if p c then [] :: r :: rs else (c :: r) :: rs

/-- Python's `str.split(sep)` with an explicit one-character separator. -/
def pySplit (s : String) (sep : Char) : List String :=
  (splitCharsBy (fun c => c = sep) s.toList).map (fun l => String.mk l)

/-- The parsing step of `getpid(target, rhost)` (lines 72-74 of `core.py`)
applied to the value collected by `run`:
`pid = response.split(" ")[0:2]; return pid[0] or pid[1]`.
`none` models a raised exception: an `AttributeError` when `response` is
`None` (no `.split` on `None`), or an `IndexError` when `pid[0]` is falsy
(empty) and `pid` has no second element.  Python's `or` returns `pid[0]`
when it is non-empty without evaluating `pid[1]`. -/
def getpidParse (response : Option String) : Option String :=
  match response with
  | none => none
  | some s =>
    match (pySplit s ' ').take 2 with
    | [] => none
    | [a] => if a = "" then none else some a
    | a :: b :: _ => some (if a = "" then b else a)

/-- Value of a nonempty all-digit character list, `none` otherwise. -/
def digitsVal (l : List Char) : Option Nat :=
  match l with
  | [] => none
  | _ =>
    if l.all Char.isDigit then
      some (l.foldl (fun acc c => 10 * acc + (c.toNat - 48)) 0)
    else none

/-- Characters stripped from both ends of the argument of Python's `int`. -/
def pyStrip (l : List Char) : List Char :=
  ((l.dropWhile Char.isWhitespace).reverse.dropWhile Char.isWhitespace).reverse

/-- Python's `int(s)` on a string: strip surrounding whitespace, allow one
optional leading sign, then require a nonempty digit string; `none` models a
raised `ValueError`. -/
def pyInt (s : String) : Option Int :=
  match pyStrip s.toList with
  | '-' :: rest => (digitsVal rest).map (fun n => -(n : Int))
  | '+' :: rest => (digitsVal rest).map (fun n => (n : Int))
  | l => (digitsVal l).map (fun n => (n : Int))

/-- The tunnel-specific failure raised by `pickport` (line 96 of `core.py`):
`TunnelException, "failure to pick remote port"`. -/
inductive TunnelException where
  | failure (msg : String)
  deriving Repr, DecidableEq

/-- The response-handling step of `pickport(rhost)` (lines 92-98 of
`core.py`), applied to the value collected from the foreground launch:
`try: rport = int(launcher.response()) except: raise TunnelException, ...`.
The bare `except` also catches the `TypeError` from `int(None)`, so a `none`
response maps to the same `TunnelException`. -/
def pickportOf (response : Option String) : Except TunnelException Int :=
  match response with
  | none => Except.error (TunnelException.failure "failure to pick remote port")
  | some s =>
    match pyInt s with
    | some n => Except.ok n
    | none => Except.error (TunnelException.failure "failure to pick remote port")

/-! ## `serve` (lines 115-142 of `core.py`) -/

/-- The remote command `serve` builds (lines 125-127):
`file = '~/bin/%s.py' % server` then
`command = "source %s; %s -p %s" % (profile, file, rport)`. -/
def serveCommand (server : String) (rport : Int) (profile : String) : String :=
  let file := "~/bin/" ++ server ++ ".py"
  "source " ++ profile ++ "; " ++ file ++ " -p " ++ toString rport

/-- An observable step taken by `serve` after building the command. -/
inductive ServeStep where
  | launchBackground (command : String)
  | collectResponse
  | logError (response : Option String)
  | sleep (delay : ℚ)
  deriving Repr, DecidableEq

/-- `serve(server, rhost, rport, profile='.bash_profile')` (lines 115-142):
build the command, configure a background shell launcher, launch it, collect
`response = rserver.response()`, then — if the response is neither `''` nor
`None` — log an error (no exception is ever raised), then `sleep(2.0)`, and
return the response.  `response` is the collected value, an environment
input; the returned pair is that response together with the ordered step
trace. -/
def serve (server : String) (rport : Int) (profile : String)
    (response : Option String) : Option String × List ServeStep :=
  let command := serveCommand server rport profile
  let steps :=
    [ServeStep.launchBackground command, ServeStep.collectResponse]
    ++ (if response = some "" ∨ response = none then []
        else [ServeStep.logError response])
    ++ [ServeStep.sleep 2]
  (response, steps)

/-! ## Formalisation of spec wording used for refinement comparison -/

/-- Formalisation of the claim wording for `getpid`: "parses the first
whitespace-delimited tokens of the response and returns the first non-empty
one" — split the response on whitespace and return the first non-empty
token, if any.  This definition follows the claim's words, to be compared
with `getpidParse`, which follows the code. -/
def specFirstNonemptyToken (s : String) : Option String :=
  (((splitCharsBy Char.isWhitespace s.toList).map (fun l => String.mk l)).filter
    (fun t => !(t == ""))).head?

end Pathos

namespace Pathos

/-! ## Claims -/

/-- C1.  A background launcher (`pid > 0`) with no cached response returns
the `None` sentinel when the bounded poll times out, without raising and
without changing state (so the sentinel is distinct from `some ""`); a
subsequent `response()` call behaves exactly as a fresh call on the same
state, i.e. polls again; and the cached-response short-circuit fires exactly
when a non-sentinel value has been captured; the poll window is the fixed
2.0 time units. -/
theorem background_timeout_returns_sentinel (s t : LauncherSCP) (r : String)
    (p : Poll) (hpid : 0 < s.pid) (hresp : s.response = none)
    (htr : t.response = some r) :
    s.getResponse Poll.timeout = (none, s)
    ∧ (s.getResponse Poll.timeout).1 ≠ some ""
    ∧ ((s.getResponse Poll.timeout).2).getResponse p = s.getResponse p
    ∧ t.getResponse p = (some r, t)
    ∧ watchTimeout = 2 := by
  have hnle : ¬ s.pid ≤ 0 := not_le.mpr hpid
  have h1 : s.getResponse Poll.timeout = (none, s) := by
    simp [LauncherSCP.getResponse, hresp, hnle]
  refine ⟨h1, by simp [h1], by rw [h1], ?_, rfl⟩
  simp [LauncherSCP.getResponse, htr]

/-- Witness for C1 at a concrete background state with pid 5 and a concrete
cached state. -/
theorem background_timeout_returns_sentinel_witness :
    ({ LauncherSCP.create "c" [] with pid := 5 } : LauncherSCP).getResponse
        Poll.timeout
      = (none, { LauncherSCP.create "c" [] with pid := 5 })
    ∧ (({ LauncherSCP.create "c" [] with pid := 5 } : LauncherSCP).getResponse
        Poll.timeout).1 ≠ some ""
    ∧ ((({ LauncherSCP.create "c" [] with pid := 5 } : LauncherSCP).getResponse
        Poll.timeout).2).getResponse Poll.ready
      = ({ LauncherSCP.create "c" [] with pid := 5 } : LauncherSCP).getResponse
          Poll.ready
    ∧ ({ LauncherSCP.create "c" [] with response := some "done" } :
        LauncherSCP).getResponse Poll.ready
      = (some "done", { LauncherSCP.create "c" [] with response := some "done" })
    ∧ watchTimeout = 2 :=
  background_timeout_returns_sentinel
    { LauncherSCP.create "c" [] with pid := 5 }
    { LauncherSCP.create "c" [] with response := some "done" }
    "done" Poll.ready (by decide) (by decide) (by decide)

/-- C2.  After a foreground launch, the first `response()` call reads the
output handle to completion exactly once and returns the child's full
output; a second call returns the same cached value with no further read
and no state change. -/
theorem foreground_response_reads_once (s : LauncherSCP) (cp : Int)
    (out : String) (p₁ p₂ : Poll) (hbg : s.inventory.background = false) :
    ((s.launch cp out).2.getResponse p₁).1 = some out
    ∧ ((s.launch cp out).2.getResponse p₁).2.fromchild.reads = 1
    ∧ ((s.launch cp out).2.getResponse p₁).2.getResponse p₂
        = (some out, ((s.launch cp out).2.getResponse p₁).2) := by
  simp [LauncherSCP.launch, LauncherSCP.execute, LauncherSCP.getResponse,
    Handle.read, hbg]

/-- Witness for C2 at a concrete foreground launcher. -/
theorem foreground_response_reads_once_witness :
    (((LauncherSCP.create "copier" []).launch 7 "hi").2.getResponse
        Poll.timeout).1 = some "hi"
    ∧ (((LauncherSCP.create "copier" []).launch 7 "hi").2.getResponse
        Poll.timeout).2.fromchild.reads = 1
    ∧ (((LauncherSCP.create "copier" []).launch 7 "hi").2.getResponse
        Poll.timeout).2.getResponse Poll.ready
      = (some "hi",
         (((LauncherSCP.create "copier" []).launch 7 "hi").2.getResponse
           Poll.timeout).2) :=
  foreground_response_reads_once (LauncherSCP.create "copier" []) 7 "hi"
    Poll.timeout Poll.ready (by decide)

/-- C3 counterexample.  The claim says keys outside the allow-list
`{source, destination, launcher, options, background, stdin}` are dropped
without effect, but the out-of-allow-list key `fgbg` changes the resulting
record: configuring only `fgbg='bg'` flips `background` from its default
`false` to `true`. -/
theorem config_fgbg_key_has_effect :
    ((LauncherSCP.create "copier" []).config [Kwd.fgbg "bg"]).1.background
        = true
    ∧ ((LauncherSCP.create "copier" []).config []).1.background = false := by
  decide

/-- C3 amended.  `config()` returns the record restricted to the six
recognised keys; sequential `config` calls merge; the last supplied value
for each recognised key wins; keys outside the allow-list are dropped
without effect, with the single exception of the backward-compatibility
alias `fgbg`, which sets `background` to whether its value is `'bg'` or
`'background'`. -/
theorem config_merges_with_last_value_winning (s : LauncherSCP)
    (ks₁ ks₂ : List Kwd) (key v : String) (b : Bool) (os : Option String) :
    ((s.config ks₁).2).config ks₂ = s.config (ks₁ ++ ks₂)
    ∧ (s.config ks₁).1 = recordOf (s.config ks₁).2.inventory
    ∧ s.config (ks₁ ++ [Kwd.other key]) = s.config ks₁
    ∧ (s.config (ks₁ ++ [Kwd.source v])).1.source = v
    ∧ (s.config (ks₁ ++ [Kwd.destination v])).1.destination = v
    ∧ (s.config (ks₁ ++ [Kwd.launcher v])).1.launcher = v
    ∧ (s.config (ks₁ ++ [Kwd.options v])).1.options = v
    ∧ (s.config (ks₁ ++ [Kwd.background b])).1.background = b
    ∧ (s.config (ks₁ ++ [Kwd.stdin os])).1.stdin = os
    ∧ (s.config (ks₁ ++ [Kwd.fgbg v])).1.background
        = (v = "bg" || v = "background") := by
  refine ⟨?_, rfl, ?_, ?_, ?_, ?_, ?_, ?_, ?_, ?_⟩ <;>
    simp [LauncherSCP.config, List.foldl_append, configApply, recordOf]

/-- C4.  `launch()` builds the command by space-joining launcher name,
options, source and destination in that fixed order; in particular the
end-to-end scenario with `source="/tmp/a.txt"`, `destination="host:~"`,
`options="-q"` and the default launcher `"scp"` builds exactly
`"scp -q /tmp/a.txt host:~"`. -/
theorem launch_builds_space_joined_command (s : LauncherSCP) (cp : Int)
    (out : String) :
    (s.launch cp out).1
      = s.inventory.launcher ++ " " ++ s.inventory.options ++ " "
        ++ s.inventory.source ++ " " ++ s.inventory.destination
    ∧ (((LauncherSCP.create "copier" []).config
          [Kwd.source "/tmp/a.txt", Kwd.destination "host:~",
           Kwd.options "-q"]).2.launch cp out).1
      = "scp -q /tmp/a.txt host:~" :=
  ⟨rfl, rfl⟩

/-- C5.  After a foreground launch `pid()` is 0; after a background launch
`pid()` is the (positive) child pid; after a subsequent `kill()` it is 0
again. -/
theorem pid_after_launch_and_kill (s : LauncherSCP) (cp : Int) (out : String)
    (hcp : 0 < cp) :
    (s.inventory.background = false → (s.launch cp out).2.pid = 0)
    ∧ (s.inventory.background = true →
        (s.launch cp out).2.pid = cp
        ∧ 0 < (s.launch cp out).2.pid
        ∧ ((s.launch cp out).2.kill).1.pid = 0) := by
  constructor
  · intro hbg
    simp [LauncherSCP.launch, LauncherSCP.execute, hbg]
  · intro hbg
    have hpid : (s.launch cp out).2.pid = cp := by
      simp [LauncherSCP.launch, LauncherSCP.execute, hbg]
    exact ⟨hpid, by rw [hpid]; exact hcp,
      by simp [LauncherSCP.kill, hpid, hcp]⟩

/-- Witness for C5: a concrete foreground launcher and a concrete background
launcher with child pid 42. -/
theorem pid_after_launch_and_kill_witness :
    ((LauncherSCP.create "fg" []).launch 42 "o").2.pid = 0
    ∧ ((LauncherSCP.create "bg" [Kwd.background true]).launch 42 "o").2.pid = 42
    ∧ 0 < ((LauncherSCP.create "bg" [Kwd.background true]).launch 42 "o").2.pid
    ∧ (((LauncherSCP.create "bg" [Kwd.background true]).launch 42
        "o").2.kill).1.pid = 0 :=
  ⟨(pid_after_launch_and_kill (LauncherSCP.create "fg" []) 42 "o"
      (by decide)).1 (by decide),
   (pid_after_launch_and_kill (LauncherSCP.create "bg" [Kwd.background true])
      42 "o" (by decide)).2 (by decide)⟩

/-- C6.  `kill()` with a live pid sends SIGTERM, blocks on `waitpid` (both
actions emitted, in order) and resets `pid` to 0; with `pid <= 0` it is a
no-op; in every case the cached response is left unchanged. -/
theorem kill_reaps_and_resets_pid (s : LauncherSCP) :
    (0 < s.pid →
      s.kill = ({ s with pid := 0 },
                [OSAction.sigterm s.pid, OSAction.waitpid s.pid]))
    ∧ (s.pid ≤ 0 → s.kill = (s, []))
    ∧ (s.kill).1.response = s.response := by
  refine ⟨fun h => by simp [LauncherSCP.kill, h], fun h => ?_, ?_⟩
  · simp [LauncherSCP.kill, not_lt.mpr h]
  · by_cases h : 0 < s.pid <;> simp [LauncherSCP.kill, h]

/-- Witness for C6 at concrete states with pid 5 and pid 0. -/
theorem kill_reaps_and_resets_pid_witness :
    ({ LauncherSCP.create "c" [] with pid := 5 } : LauncherSCP).kill
      = ({ ({ LauncherSCP.create "c" [] with pid := 5 } : LauncherSCP) with
            pid := 0 },
         [OSAction.sigterm 5, OSAction.waitpid 5])
    ∧ (LauncherSCP.create "c" []).kill = (LauncherSCP.create "c" [], [])
    ∧ (({ LauncherSCP.create "c" [] with pid := 5 } :
        LauncherSCP).kill).1.response
      = ({ LauncherSCP.create "c" [] with pid := 5 } :
          LauncherSCP).response :=
  ⟨(kill_reaps_and_resets_pid
      { LauncherSCP.create "c" [] with pid := 5 }).1 (by decide),
   (kill_reaps_and_resets_pid (LauncherSCP.create "c" [])).2.1 (by decide),
   (kill_reaps_and_resets_pid
      { LauncherSCP.create "c" [] with pid := 5 }).2.2⟩

/-- C7.  `pickport` returns the parsed integer when the collected response
parses as one (in particular `"54321\n"` yields `54321`), and raises the
tunnel-specific `TunnelException` when the response is non-numeric. -/
theorem pickport_parses_int_or_raises (s t : String) (n : Int)
    (hs : pyInt s = some n) (ht : pyInt t = none) :
    pickportOf (some "54321\n") = Except.ok 54321
    ∧ pickportOf (some s) = Except.ok n
    ∧ pickportOf (some t)
      = Except.error (TunnelException.failure "failure to pick remote port")
    := by
  refine ⟨rfl, ?_, ?_⟩
  · simp [pickportOf, hs]
  · simp [pickportOf, ht]

/-- Witness for C7 with the numeric response `"54321\n"` and the non-numeric
response `"abc"`. -/
theorem pickport_parses_int_or_raises_witness :
    pickportOf (some "54321\n") = Except.ok 54321
    ∧ pickportOf (some "54321\n") = Except.ok 54321
    ∧ pickportOf (some "abc")
      = Except.error (TunnelException.failure "failure to pick remote port")
    :=
  pickport_parses_int_or_raises "54321\n" "abc" 54321 (by decide) (by decide)

/-- C8 counterexample.  On the response `"  1234"` the code returns the
empty string (the second of the first two space-split fields), while the
first non-empty whitespace-delimited token of that response is `"1234"` —
so `getpid` does not in general return the first non-empty
whitespace-delimited token. -/
theorem getpid_not_first_nonempty_token :
    getpidParse (some "  1234") = some ""
    ∧ specFirstNonemptyToken "  1234" = some "1234"
    ∧ getpidParse (some "  1234") ≠ specFirstNonemptyToken "  1234" := by
  decide

/-- C8 amended.  `getpid` with collected response `"1234 5678 myproc"`
returns `"1234"`; in general it takes the first two space-split fields of
the response and returns the first when it is non-empty, otherwise the
second (which may itself be empty). -/
theorem getpid_takes_first_of_two_fields (s a b : String) (rest : List String)
    (hsplit : pySplit s ' ' = a :: b :: rest) :
    getpidParse (some "1234 5678 myproc") = some "1234"
    ∧ getpidParse (some s) = some (if a = "" then b else a) := by
  refine ⟨by decide, ?_⟩
  simp [getpidParse, hsplit]

/-- Witness for C8 amended at the claim's concrete response. -/
theorem getpid_takes_first_of_two_fields_witness :
    getpidParse (some "1234 5678 myproc") = some "1234"
    ∧ getpidParse (some "1234 5678 myproc")
      = some (if "1234" = "" then "5678" else "1234") :=
  getpid_takes_first_of_two_fields "1234 5678 myproc" "1234" "5678"
    ["myproc"] (by decide)

/-- C9 counterexample.  The claim orders the steps as launch, settle delay,
then response inspection; in the code the response is collected and
inspected before the `sleep(2.0)` settle delay.  At a concrete input the
trace is launch, collect, log-error, sleep — and the prefix before the
settle sleep already contains the response collection. -/
theorem serve_sleeps_after_inspection :
    (serve "ppserver" 12345 ".bash_profile" (some "oops")).2
      = [ServeStep.launchBackground
           "source .bash_profile; ~/bin/ppserver.py -p 12345",
         ServeStep.collectResponse, ServeStep.logError (some "oops"),
         ServeStep.sleep 2]
    ∧ ((serve "ppserver" 12345 ".bash_profile" (some "oops")).2.takeWhile
        (fun st => decide (st ≠ ServeStep.sleep 2))).contains
        ServeStep.collectResponse = true := by
  decide

/-- C9 amended.  `serve` builds the remote command sourcing the profile and
invoking `~/bin/<server>.py` with a `-p <port>` flag, launches it in
background, collects and inspects the response — empty or `None` is treated
as healthy, any other response is logged only and no error is raised — then
waits the fixed settle delay, and returns the response to the caller in
every case. -/
theorem serve_logs_only_and_returns_response (server profile : String)
    (rport : Int) (resp : Option String) :
    (serve server rport profile resp).1 = resp
    ∧ serveCommand server rport profile
      = "source " ++ profile ++ "; " ++ ("~/bin/" ++ server ++ ".py")
        ++ " -p " ++ toString rport
    ∧ (resp = some "" ∨ resp = none →
        (serve server rport profile resp).2
          = [ServeStep.launchBackground (serveCommand server rport profile),
             ServeStep.collectResponse, ServeStep.sleep 2])
    ∧ (¬(resp = some "" ∨ resp = none) →
        (serve server rport profile resp).2
          = [ServeStep.launchBackground (serveCommand server rport profile),
             ServeStep.collectResponse, ServeStep.logError resp,
             ServeStep.sleep 2]) := by
  refine ⟨rfl, rfl, fun h => ?_, fun h => ?_⟩
  · simp [serve, h]
  · simp [serve, h]

/-- Witness for C9 amended at a healthy (`None`) response and an unexpected
response. -/
theorem serve_logs_only_and_returns_response_witness :
    (serve "ppserver" 9999 ".bash_profile" none).1 = none
    ∧ (serve "ppserver" 9999 ".bash_profile" none).2
      = [ServeStep.launchBackground
           (serveCommand "ppserver" 9999 ".bash_profile"),
         ServeStep.collectResponse, ServeStep.sleep 2]
    ∧ (serve "ppserver" 9999 ".bash_profile" (some "bad")).2
      = [ServeStep.launchBackground
           (serveCommand "ppserver" 9999 ".bash_profile"),
         ServeStep.collectResponse, ServeStep.logError (some "bad"),
         ServeStep.sleep 2] :=
  ⟨(serve_logs_only_and_returns_response "ppserver" ".bash_profile" 9999
      none).1,
   (serve_logs_only_and_returns_response "ppserver" ".bash_profile" 9999
      none).2.2.1 (Or.inr rfl),
   (serve_logs_only_and_returns_response "ppserver" ".bash_profile" 9999
      (some "bad")).2.2.2 (by decide)⟩

/-- C10.  `getpid` is partial at its public interface: its inner `run`
defaults to a background launch, so the collected response may be the
`None` sentinel, on which `getpid` raises (modelled as `none`); it raises
on the empty-string response (index out of range); and it returns normally
exactly when the response is a non-`None` string whose first space-split
token is non-empty or which splits into at least two tokens. -/
theorem getpid_partiality (s : String) :
    runBackgroundDefault = true
    ∧ getpidParse none = none
    ∧ getpidParse (some "") = none
    ∧ ((getpidParse (some s)).isSome
        ↔ ((pySplit s ' ').headD "" ≠ "" ∨ 2 ≤ (pySplit s ' ').length)) := by
  refine ⟨rfl, rfl, by decide, ?_⟩
  rcases h : pySplit s ' ' with _ | ⟨a, _ | ⟨b, t⟩⟩
  · simp [getpidParse, h]
  · by_cases ha : a = "" <;> simp [getpidParse, h, ha]
  · by_cases ha : a = "" <;> simp [getpidParse, h, ha]

end Pathos
